import Mathlib

/-!
Verification of the NLP-Team8/HW4 repository (single notebook
`src/encoder-decoder.ipynb`) against its natural-language specification.

The notebook is a straight-line script: read three CSV files, extract two
columns from each, tokenize with a pretrained tokenizer, wrap the splits in
a DatasetDict, configure a Seq2SeqTrainer, train, and evaluate on the test
split with ROUGE and BLEU metrics.

Shallow embedding choices:
* Python strings are Lean `String`, token ids are `Nat`, scores are `ℚ`
  (pretty-printed metric floats carry no float-specific behaviour the
  claims depend on; Python `round(v, 4)` is modelled as rounding the
  rational to four decimal places, ignoring float tie-breaking artifacts).
* External library calls (pandas `read_csv`, `AutoTokenizer.from_pretrained`,
  `AutoModelForSeq2SeqLM.from_pretrained`, `load_metric`,
  `sacrebleu.corpus_bleu`, `trainer.train`, `trainer.evaluate`) are fields
  of an `Env` record; fallible ones return `Except Err` so that the
  script's (absence of) error handling is visible in the embedding.
* The tokenizer's raw encoding is an abstract function `String → List Nat`;
  `max_length` truncation and `"max_length"` padding are modelled
  explicitly, as those are the semantics the notebook requests.
* The script itself is `notebook : Env → Except Err (NotebookFinal × List Event)`,
  a straight-line `do` block mirroring the notebook cell by cell; each
  external call appends an `Event` to the trace, so ordering claims are
  claims about the trace of a successful run.
-/

namespace HW4

/-- Errors raised by external library calls.  `keyError` models pandas /
datasets raising `KeyError` on a missing column or split key; `libError`
is any other exception raised inside an external library. -/
inductive Err where
  | keyError (key : String)
  | libError (msg : String)
deriving DecidableEq

/-- A pandas DataFrame as read from CSV: an association list from column
name to the column's values (`df['c'].tolist()` is a lookup). -/
def CSVTable : Type := List (String × List String)

/-- `df[c].tolist()`: look a column up, raising `KeyError` when absent. -/
def getColumn (df : CSVTable) (c : String) : Except Err (List String) :=
  match List.lookup c df with
  | some v => Except.ok v
  | none => Except.error (Err.keyError c)

/-- The `.mid` (and `.low`/`.high`) entries of a rouge `AggregateScore`:
precision, recall and f-measure. -/
structure ScoreTriple where
  precision : ℚ
  «recall» : ℚ
  fmeasure : ℚ

/-- A rouge `AggregateScore` with its low/mid/high confidence triples;
`compute_metrics` reads `value.mid.fmeasure`. -/
structure AggregateScore where
  low : ScoreTriple
  mid : ScoreTriple
  high : ScoreTriple

/-- The object returned by `sacrebleu.corpus_bleu`; the notebook reads its
`score` attribute (a 0-100 scale corpus BLEU). -/
structure BleuResult where
  score : ℚ

/-- The metric object returned by `load_metric("rouge")`: its `compute`
method takes predictions, references and the `use_stemmer` flag and
returns a dict from rouge-type name to `AggregateScore`. -/
structure RougeMetric where
  compute : List String → List String → Bool → List (String × AggregateScore)

/-- The tokenizer returned by `AutoTokenizer.from_pretrained`.  `encode`
is its raw (un-truncated, un-padded) token-id encoding of one string,
`padId` its padding token id, and `batch_decode` its decoding of id
sequences back to strings, with the `skip_special_tokens` flag. -/
structure Tokenizer where
  encode : String → List Nat
  padId : Nat
  batch_decode : List (List Nat) → Bool → List String

/-- Truncate a raw encoding to `maxLen` ids and pad with `padId` up to
`maxLen`: the semantics of `truncation=True, padding="max_length"`. -/
def truncPad (padId : Nat) (maxLen : Nat) (ids : List Nat) : List Nat :=
  let t := ids.take maxLen
  t ++ List.replicate (maxLen - t.length) padId

/-- The attention mask matching `truncPad`: 1 on real tokens, 0 on padding. -/
def attnMask (maxLen : Nat) (ids : List Nat) : List Nat :=
  let n := min ids.length maxLen
  List.replicate n 1 ++ List.replicate (maxLen - n) 0

/-- The dict returned by calling the tokenizer on a batch of texts
(`input_ids`, `attention_mask`), plus the `labels` entry the notebook
assigns afterwards (`none` until assigned). -/
structure BatchEncoding where
  input_ids : List (List Nat)
  attention_mask : List (List Nat)
  labels : Option (List (List Nat))

/-- `tokenizer(texts, max_length=maxLen, truncation=True, padding="max_length")`. -/
def tokenizerCall (tok : Tokenizer) (texts : List String) (maxLen : Nat) : BatchEncoding :=
  { input_ids := texts.map (fun t => truncPad tok.padId maxLen (tok.encode t))
    attention_mask := texts.map (fun t => attnMask maxLen (tok.encode t))
    labels := none }

/-- A batch of examples as handed to `preprocess_function` by
`Dataset.map(..., batched=True)`: the two column lists. -/
structure RawDataset where
  transcription : List String
  description : List String

/-- `preprocess_function(examples)` from the notebook: tokenize the
transcriptions at max length 512 and the descriptions at max length 128
(both truncated and padded to max length), then set the `labels` entry of
the input encoding to the `input_ids` of the description encoding. -/
def preprocess_function (tok : Tokenizer) (examples : RawDataset) : BatchEncoding :=
  let inputs := tokenizerCall tok examples.transcription 512
  let outputs := tokenizerCall tok examples.description 128
  { inputs with labels := some outputs.input_ids }

/-- `Dataset.from_dict({'transcription': ts, 'description': ds})`. -/
def Dataset.from_dict (transcription description : List String) : RawDataset :=
  { transcription := transcription, description := description }

/-- A split after `Dataset.map(preprocess_function, batched=True)`: the
original columns together with the columns produced by the map. -/
structure TokenizedDataset where
  transcription : List String
  description : List String
  input_ids : List (List Nat)
  attention_mask : List (List Nat)
  labels : List (List Nat)

/-- `Dataset.map(f, batched=True)`: apply `f` to the column batch and keep
the original columns alongside the new ones.  A missing `labels` entry
becomes the empty column list (unreachable for `preprocess_function`,
which always assigns `labels`). -/
def Dataset.map (f : RawDataset → BatchEncoding) (d : RawDataset) : TokenizedDataset :=
  let enc := f d
  { transcription := d.transcription
    description := d.description
    input_ids := enc.input_ids
    attention_mask := enc.attention_mask
    labels := enc.labels.getD [] }

/-- `DatasetDict`: an association list from split key to tokenized split. -/
def DatasetDict : Type := List (String × TokenizedDataset)

/-- `dataset[key]`: split lookup, raising `KeyError` when the key is absent. -/
def dsGet (d : DatasetDict) (key : String) : Except Err TokenizedDataset :=
  match List.lookup key d with
  | some v => Except.ok v
  | none => Except.error (Err.keyError key)

/-- Python `round(v, 4)` on the rational model: round to the nearest
multiple of 1/10000 (float banker's-rounding tie behaviour is not
modelled; no claim depends on ties). -/
def round4 (v : ℚ) : ℚ := ((round (v * 10000) : ℤ) : ℚ) / 10000

/-- The `(predictions, labels)` pair the trainer passes to `compute_metrics`. -/
structure EvalPred where
  predictions : List (List Nat)
  labels : List (List Nat)

/-- `compute_metrics(eval_pred)` from the notebook.  It closes over the
tokenizer, the loaded rouge metric and `sacrebleu.corpus_bleu` (here
explicit parameters): batch-decode predictions and labels with
`skip_special_tokens=True`, compute rouge with `use_stemmer=True` and keep
`value.mid.fmeasure * 100` per rouge type, compute the sacrebleu corpus
score on the same decoded pair, merge the two dicts (modelled as list
append; rouge types and the key "bleu" are distinct) and round every
value to 4 decimal places. -/
def compute_metrics (tok : Tokenizer) (rouge_metric : RougeMetric)
    (corpus_bleu : List String → List (List String) → BleuResult)
    (eval_pred : EvalPred) : List (String × ℚ) :=
  let decoded_preds := tok.batch_decode eval_pred.predictions true
  let decoded_labels := tok.batch_decode eval_pred.labels true
  let rouge_result := rouge_metric.compute decoded_preds decoded_labels true
  let rouge_result := rouge_result.map (fun kv => (kv.1, kv.2.mid.fmeasure * 100))
  let bleu := corpus_bleu decoded_preds [decoded_labels]
  let bleu_result := [("bleu", bleu.score)]
  let result := rouge_result ++ bleu_result
  result.map (fun kv => (kv.1, round4 kv.2))

/-- The model object returned by `AutoModelForSeq2SeqLM.from_pretrained`
(opaque to the notebook; `model.to(device)` is a device move with no
claim-relevant effect and is elided). -/
structure Model where
  name : String

/-- The value returned by `trainer.train()` (discarded by the notebook). -/
structure TrainOutput where

/-- The `Seq2SeqTrainingArguments` constructor parameters the notebook
passes, one field per keyword argument of the call. -/
structure Seq2SeqTrainingArguments where
  output_dir : String
  evaluation_strategy : String
  learning_rate : ℚ
  per_device_train_batch_size : Nat
  per_device_eval_batch_size : Nat
  weight_decay : ℚ
  save_total_limit : Nat
  num_train_epochs : Nat
  predict_with_generate : Bool
  logging_dir : String

/-- `transformers.DataCollatorForSeq2Seq(tokenizer, model=model)`. -/
structure DataCollatorForSeq2Seq where
  tokenizer : Tokenizer
  model : Model

/-- The `Seq2SeqTrainer` as configured by the notebook: one field per
keyword argument of its constructor call. -/
structure Trainer where
  model : Model
  args : Seq2SeqTrainingArguments
  train_dataset : TokenizedDataset
  eval_dataset : TokenizedDataset
  tokenizer : Tokenizer
  data_collator : DataCollatorForSeq2Seq
  compute_metrics : EvalPred → List (String × ℚ)

/-- Externally observable operations of the script, recorded in program
order by the embedding.  `extract_column df col` is `df[col].tolist()`;
`map_split k` is the `Dataset.map(preprocess_function, batched=True)` call
for split key `k`; `configure_trainer tk ek` is the `Seq2SeqTrainer`
construction with `dataset[tk]` as `train_dataset` and `dataset[ek]` as
`eval_dataset`; `trainer_evaluate k` is `trainer.evaluate(eval_dataset=dataset[k])`. -/
inductive Event where
  | read_csv (path : String)
  | extract_column (df : String) (col : String)
  | load_tokenizer (name : String)
  | map_split (key : String)
  | load_model (name : String)
  | load_metric (name : String)
  | configure_trainer (trainKey : String) (evalKey : String)
  | trainer_train
  | trainer_evaluate (evalKey : String)
deriving DecidableEq

/-- The external library surface the notebook calls into.  Fallible calls
return `Except Err`; the notebook contains no `try`/`except`, which in the
embedding means every call is sequenced with plain monadic bind. -/
structure Env where
  read_csv : String → Except Err CSVTable
  tokenizer_from_pretrained : String → Except Err Tokenizer
  model_from_pretrained : String → Except Err Model
  load_metric : String → Except Err RougeMetric
  corpus_bleu : List String → List (List String) → BleuResult
  trainer_train : Trainer → Except Err TrainOutput
  trainer_evaluate : Trainer → TokenizedDataset → Except Err (List (String × ℚ))

/-- The script-level variables still live after the last cell of a
successful run, plus the value of the final `trainer.evaluate` call. -/
structure NotebookFinal where
  train_df : CSVTable
  val_df : CSVTable
  test_df : CSVTable
  train_transcriptions : List String
  train_descriptions : List String
  val_transcriptions : List String
  val_descriptions : List String
  test_transcriptions : List String
  test_descriptions : List String
  tokenizer : Tokenizer
  train_data : RawDataset
  val_data : RawDataset
  test_data : RawDataset
  dataset : DatasetDict
  model : Model
  training_args : Seq2SeqTrainingArguments
  rouge_metric : RougeMetric
  trainer : Trainer
  results : List (String × ℚ)

/-- The pretrained checkpoint name used for both tokenizer and model. -/
def checkpointName : String := "Falconsai/medical_summarization"

/-- The whole notebook, cell by cell, as a straight-line `Except` program
over the external environment.  `tr` accumulates the event trace; on an
external error the script stops at that point with that error, exactly as
an uncaught Python exception would.  Cell 1 (`pip install`) and the
`print(results)` of cell 6 have no claim-relevant semantics and are
elided, as are `torch.device`/`model.to(device)`. -/
def notebook (env : Env) : Except Err (NotebookFinal × List Event) := do
  -- Cell 2: load datasets and extract the two columns per split
  let tr : List Event := [Event.read_csv "preprocessed_data/train.csv"]
  let train_df ← env.read_csv "preprocessed_data/train.csv"
  let tr := tr ++ [Event.read_csv "preprocessed_data/val.csv"]
  let val_df ← env.read_csv "preprocessed_data/val.csv"
  let tr := tr ++ [Event.read_csv "preprocessed_data/test.csv"]
  let test_df ← env.read_csv "preprocessed_data/test.csv"
  let tr := tr ++ [Event.extract_column "train_df" "transcription"]
  let train_transcriptions ← getColumn train_df "transcription"
  let tr := tr ++ [Event.extract_column "train_df" "description"]
  let train_descriptions ← getColumn train_df "description"
  let tr := tr ++ [Event.extract_column "val_df" "transcription"]
  let val_transcriptions ← getColumn val_df "transcription"
  let tr := tr ++ [Event.extract_column "val_df" "description"]
  let val_descriptions ← getColumn val_df "description"
  let tr := tr ++ [Event.extract_column "test_df" "transcription"]
  let test_transcriptions ← getColumn test_df "transcription"
  let tr := tr ++ [Event.extract_column "test_df" "description"]
  let test_descriptions ← getColumn test_df "description"
  -- Cell 3: tokenizer, Hugging Face datasets, DatasetDict
  let tr := tr ++ [Event.load_tokenizer checkpointName]
  let tokenizer ← env.tokenizer_from_pretrained checkpointName
  let train_data := Dataset.from_dict train_transcriptions train_descriptions
  let val_data := Dataset.from_dict val_transcriptions val_descriptions
  let test_data := Dataset.from_dict test_transcriptions test_descriptions
  let tr := tr ++ [Event.map_split "train", Event.map_split "validation",
    Event.map_split "test"]
  let dataset : DatasetDict :=
    [("train", Dataset.map (preprocess_function tokenizer) train_data),
     ("validation", Dataset.map (preprocess_function tokenizer) val_data),
     ("test", Dataset.map (preprocess_function tokenizer) test_data)]
  -- Cell 4: model, training arguments, data collator
  let tr := tr ++ [Event.load_model checkpointName]
  let model ← env.model_from_pretrained checkpointName
  let training_args : Seq2SeqTrainingArguments :=
    { output_dir := "./results"
      evaluation_strategy := "epoch"
      learning_rate := 2e-5
      per_device_train_batch_size := 2
      per_device_eval_batch_size := 2
      weight_decay := 0.01
      save_total_limit := 3
      num_train_epochs := 3
      predict_with_generate := true
      logging_dir := "./logs" }
  let data_collator : DataCollatorForSeq2Seq := { tokenizer := tokenizer, model := model }
  -- Cell 5: rouge metric, trainer, training
  let tr := tr ++ [Event.load_metric "rouge"]
  let rouge_metric ← env.load_metric "rouge"
  let trainSplit ← dsGet dataset "train"
  let validationSplit ← dsGet dataset "validation"
  let trainer : Trainer :=
    { model := model
      args := training_args
      train_dataset := trainSplit
      eval_dataset := validationSplit
      tokenizer := tokenizer
      data_collator := data_collator
      compute_metrics := compute_metrics tokenizer rouge_metric env.corpus_bleu }
  let tr := tr ++ [Event.configure_trainer "train" "validation", Event.trainer_train]
  let _ ← env.trainer_train trainer
  -- Cell 6: evaluate on the test split
  let testSplit ← dsGet dataset "test"
  let tr := tr ++ [Event.trainer_evaluate "test"]
  let results ← env.trainer_evaluate trainer testSplit
  pure
    ({ train_df := train_df
       val_df := val_df
       test_df := test_df
       train_transcriptions := train_transcriptions
       train_descriptions := train_descriptions
       val_transcriptions := val_transcriptions
       val_descriptions := val_descriptions
       test_transcriptions := test_transcriptions
       test_descriptions := test_descriptions
       tokenizer := tokenizer
       train_data := train_data
       val_data := val_data
       test_data := test_data
       dataset := dataset
       model := model
       training_args := training_args
       rouge_metric := rouge_metric
       trainer := trainer
       results := results }, tr)

/-- One split of the successful run: `Dataset.from_dict` on the two column
lists followed by `Dataset.map(preprocess_function)`. -/
abbrev splitOf (tok : Tokenizer) (ts ds : List String) : TokenizedDataset :=
  Dataset.map (preprocess_function tok) (Dataset.from_dict ts ds)

/-- The `Seq2SeqTrainingArguments` value the notebook constructs. -/
abbrev notebookTrainingArgs : Seq2SeqTrainingArguments :=
  { output_dir := "./results"
    evaluation_strategy := "epoch"
    learning_rate := 2e-5
    per_device_train_batch_size := 2
    per_device_eval_batch_size := 2
    weight_decay := 0.01
    save_total_limit := 3
    num_train_epochs := 3
    predict_with_generate := true
    logging_dir := "./logs" }

/-- The `Seq2SeqTrainer` value a successful run constructs, as a function
of the loaded externals and the extracted column lists. -/
abbrev notebookTrainer (env : Env) (tok : Tokenizer) (mdl : Model)
    (met : RougeMetric) (trT trD vaT vaD : List String) : Trainer :=
  { model := mdl
    args := notebookTrainingArgs
    train_dataset := splitOf tok trT trD
    eval_dataset := splitOf tok vaT vaD
    tokenizer := tok
    data_collator := { tokenizer := tok, model := mdl }
    compute_metrics := compute_metrics tok met env.corpus_bleu }

/-- The event trace of a successful run, in program order. -/
def successTrace : List Event :=
  [Event.read_csv "preprocessed_data/train.csv",
   Event.read_csv "preprocessed_data/val.csv",
   Event.read_csv "preprocessed_data/test.csv",
   Event.extract_column "train_df" "transcription",
   Event.extract_column "train_df" "description",
   Event.extract_column "val_df" "transcription",
   Event.extract_column "val_df" "description",
   Event.extract_column "test_df" "transcription",
   Event.extract_column "test_df" "description",
   Event.load_tokenizer checkpointName,
   Event.map_split "train", Event.map_split "validation", Event.map_split "test",
   Event.load_model checkpointName,
   Event.load_metric "rouge",
   Event.configure_trainer "train" "validation",
   Event.trainer_train,
   Event.trainer_evaluate "test"]

/-- Modelled from the spec and claim wording for the refinement check of
the evaluation function: one entry per ROUGE variant returned by the rouge
library, each the mid f-measure over the decoded pairs times 100 and
rounded to four decimal places, followed by one BLEU entry, the sacrebleu
corpus score over the same decoded pairs rounded to four decimal places. -/
def compute_metrics_spec (tok : Tokenizer) (rouge_metric : RougeMetric)
    (corpus_bleu : List String → List (List String) → BleuResult)
    (eval_pred : EvalPred) : List (String × ℚ) :=
  let decoded_preds := tok.batch_decode eval_pred.predictions true
  let decoded_labels := tok.batch_decode eval_pred.labels true
  (rouge_metric.compute decoded_preds decoded_labels true).map
    (fun kv => (kv.1, round4 (kv.2.mid.fmeasure * 100)))
  ++ [("bleu", round4 (corpus_bleu decoded_preds [decoded_labels]).score)]

/-- A concrete tokenizer for witnesses: every text encodes to `[7]`,
padding id 0, decoding returns `"x"` per sequence. -/
def tokW : Tokenizer :=
  { encode := fun _ => [7]
    padId := 0
    batch_decode := fun xs _ => xs.map (fun _ => "x") }

/-- A concrete two-column CSV table for witnesses. -/
def tableW : CSVTable :=
  [("transcription", ["hello"]), ("description", ["hi"])]

/-- A concrete rouge aggregate for witnesses, with mid f-measure 1/2. -/
def aggW : AggregateScore :=
  { low := { precision := 0, «recall» := 0, fmeasure := 0 }
    mid := { precision := 0, «recall» := 0, fmeasure := 1/2 }
    high := { precision := 0, «recall» := 0, fmeasure := 0 } }

/-- The rouge metric with the library's default rouge types: the
`datasets` rouge metric computes `rouge1`, `rouge2`, `rougeL` and
`rougeLsum` when `rouge_types` is not passed, as in the notebook. -/
def rougeW : RougeMetric :=
  { compute := fun _ _ _ =>
      [("rouge1", aggW), ("rouge2", aggW), ("rougeL", aggW), ("rougeLsum", aggW)] }

/-- A concrete sacrebleu corpus scorer for witnesses: constant score 30. -/
def corpusBleuW : List String → List (List String) → BleuResult := fun _ _ => ⟨30⟩

/-- A concrete prediction/label pair for witnesses. -/
def epW : EvalPred := { predictions := [[1, 2]], labels := [[3]] }

/-- An environment for witnesses in which every external call succeeds;
`trainer_evaluate` applies the trainer's `compute_metrics` to the
evaluation split, as the real trainer does with `predict_with_generate`. -/
def envW : Env :=
  { read_csv := fun _ => Except.ok tableW
    tokenizer_from_pretrained := fun _ => Except.ok tokW
    model_from_pretrained := fun _ => Except.ok { name := "Falconsai/medical_summarization" }
    load_metric := fun _ => Except.ok rougeW
    corpus_bleu := corpusBleuW
    trainer_train := fun _ => Except.ok {}
    trainer_evaluate := fun t d =>
      Except.ok (t.compute_metrics { predictions := d.input_ids, labels := d.labels }) }

/-- `envW` with `read_csv` failing, for the error-propagation witness. -/
def envFailW : Env :=
  { envW with read_csv := fun _ => Except.error (Err.libError "FileNotFoundError") }

/-- Bind on `Except` consumes a success value. -/
theorem ok_bind {α β : Type} (a : α) (f : α → Except Err β) :
    (Except.ok a >>= f) = f a := rfl

/-- Bind on `Except` propagates an error unchanged. -/
theorem error_bind {α β : Type} (e : Err) (f : α → Except Err β) :
    ((Except.error e : Except Err α) >>= f) = Except.error e := rfl

/-- `pure` on `Except` is `Except.ok`. -/
theorem pure_ok {α : Type} (a : α) : (pure a : Except Err α) = Except.ok a := rfl

/-- Splitting the three-entry `DatasetDict` literal at key `"train"`. -/
theorem dsGet_train (x y z : TokenizedDataset) :
    dsGet [("train", x), ("validation", y), ("test", z)] "train" = Except.ok x := rfl

/-- Splitting the three-entry `DatasetDict` literal at key `"validation"`. -/
theorem dsGet_validation (x y z : TokenizedDataset) :
    dsGet [("train", x), ("validation", y), ("test", z)] "validation" = Except.ok y := rfl

/-- Splitting the three-entry `DatasetDict` literal at key `"test"`. -/
theorem dsGet_test (x y z : TokenizedDataset) :
    dsGet [("train", x), ("validation", y), ("test", z)] "test" = Except.ok z := rfl

/-- Inversion for a successful run of the notebook: every external call
succeeded, and the final state and trace are exactly the values determined
by those calls.  `trT`/`trD` etc. are the transcription/description column
lists of the train, val and test frames. -/
theorem notebook_ok_inv (env : Env) (fin : NotebookFinal) (tr : List Event)
    (h : notebook env = Except.ok (fin, tr)) :
    ∃ (trDf vaDf teDf : CSVTable) (trT trD vaT vaD teT teD : List String)
      (tok : Tokenizer) (mdl : Model) (met : RougeMetric) (tout : TrainOutput)
      (res : List (String × ℚ)),
      env.read_csv "preprocessed_data/train.csv" = Except.ok trDf ∧
      env.read_csv "preprocessed_data/val.csv" = Except.ok vaDf ∧
      env.read_csv "preprocessed_data/test.csv" = Except.ok teDf ∧
      getColumn trDf "transcription" = Except.ok trT ∧
      getColumn trDf "description" = Except.ok trD ∧
      getColumn vaDf "transcription" = Except.ok vaT ∧
      getColumn vaDf "description" = Except.ok vaD ∧
      getColumn teDf "transcription" = Except.ok teT ∧
      getColumn teDf "description" = Except.ok teD ∧
      env.tokenizer_from_pretrained checkpointName = Except.ok tok ∧
      env.model_from_pretrained checkpointName = Except.ok mdl ∧
      env.load_metric "rouge" = Except.ok met ∧
      env.trainer_train (notebookTrainer env tok mdl met trT trD vaT vaD) = Except.ok tout ∧
      env.trainer_evaluate (notebookTrainer env tok mdl met trT trD vaT vaD)
        (splitOf tok teT teD) = Except.ok res ∧
      fin =
        { train_df := trDf
          val_df := vaDf
          test_df := teDf
          train_transcriptions := trT
          train_descriptions := trD
          val_transcriptions := vaT
          val_descriptions := vaD
          test_transcriptions := teT
          test_descriptions := teD
          tokenizer := tok
          train_data := Dataset.from_dict trT trD
          val_data := Dataset.from_dict vaT vaD
          test_data := Dataset.from_dict teT teD
          dataset :=
            [("train", splitOf tok trT trD),
             ("validation", splitOf tok vaT vaD),
             ("test", splitOf tok teT teD)]
          model := mdl
          training_args := notebookTrainingArgs
          rouge_metric := met
          trainer := notebookTrainer env tok mdl met trT trD vaT vaD
          results := res } ∧
      tr = successTrace := by
  unfold notebook at h
  cases h1 : env.read_csv "preprocessed_data/train.csv" with
  | error e => simp only [h1, error_bind] at h; exact Except.noConfusion h
  | ok trDf =>
  simp only [h1, ok_bind] at h
  cases h2 : env.read_csv "preprocessed_data/val.csv" with
  | error e => simp only [h2, error_bind] at h; exact Except.noConfusion h
  | ok vaDf =>
  simp only [h2, ok_bind] at h
  cases h3 : env.read_csv "preprocessed_data/test.csv" with
  | error e => simp only [h3, error_bind] at h; exact Except.noConfusion h
  | ok teDf =>
  simp only [h3, ok_bind] at h
  cases h4 : getColumn trDf "transcription" with
  | error e => simp only [h4, error_bind] at h; exact Except.noConfusion h
  | ok trT =>
  simp only [h4, ok_bind] at h
  cases h5 : getColumn trDf "description" with
  | error e => simp only [h5, error_bind] at h; exact Except.noConfusion h
  | ok trD =>
  simp only [h5, ok_bind] at h
  cases h6 : getColumn vaDf "transcription" with
  | error e => simp only [h6, error_bind] at h; exact Except.noConfusion h
  | ok vaT =>
  simp only [h6, ok_bind] at h
  cases h7 : getColumn vaDf "description" with
  | error e => simp only [h7, error_bind] at h; exact Except.noConfusion h
  | ok vaD =>
  simp only [h7, ok_bind] at h
  cases h8 : getColumn teDf "transcription" with
  | error e => simp only [h8, error_bind] at h; exact Except.noConfusion h
  | ok teT =>
  simp only [h8, ok_bind] at h
  cases h9 : getColumn teDf "description" with
  | error e => simp only [h9, error_bind] at h; exact Except.noConfusion h
  | ok teD =>
  simp only [h9, ok_bind] at h
  cases h10 : env.tokenizer_from_pretrained checkpointName with
  | error e => simp only [h10, error_bind] at h; exact Except.noConfusion h
  | ok tok =>
  simp only [h10, ok_bind] at h
  cases h11 : env.model_from_pretrained checkpointName with
  | error e => simp only [h11, error_bind] at h; exact Except.noConfusion h
  | ok mdl =>
  simp only [h11, ok_bind] at h
  cases h12 : env.load_metric "rouge" with
  | error e => simp only [h12, error_bind] at h; exact Except.noConfusion h
  | ok met =>
  simp only [h12, ok_bind, dsGet_train, dsGet_validation, dsGet_test] at h
  cases h13 : env.trainer_train (notebookTrainer env tok mdl met trT trD vaT vaD) with
  | error e => simp only [h13, error_bind] at h; exact Except.noConfusion h
  | ok tout =>
  simp only [h13, ok_bind] at h
  cases h14 : env.trainer_evaluate (notebookTrainer env tok mdl met trT trD vaT vaD)
      (splitOf tok teT teD) with
  | error e => simp only [h14, error_bind] at h; exact Except.noConfusion h
  | ok res =>
  simp only [h14, ok_bind, pure_ok, Except.ok.injEq, Prod.mk.injEq] at h
  obtain ⟨hf, ht⟩ := h
  exact ⟨trDf, vaDf, teDf, trT, trD, vaT, vaD, teT, teD, tok, mdl, met, tout, res,
    rfl, rfl, rfl, h4, h5, h6, h7, h8, h9, rfl, rfl, rfl, h13, h14, hf.symm, ht.symm⟩

/-- Truncating to `L` then padding up to `L` yields exactly `L` ids. -/
theorem truncPad_length (p L : Nat) (xs : List Nat) : (truncPad p L xs).length = L := by
  simp [truncPad]

/-- Rounding to four decimal places keeps a value inside `[0, 100]`. -/
theorem round4_nonneg_le_hundred {q : ℚ} (h0 : 0 ≤ q) (h1 : q ≤ 100) :
    0 ≤ round4 q ∧ round4 q ≤ 100 := by
  have hlow : (0 : ℤ) ≤ round (q * 10000) := by
    have h2 : round ((0 : ℚ)) ≤ round (q * 10000) := by
      rw [round_eq, round_eq]
      exact Int.floor_le_floor (by linarith)
    simpa using h2
  have hhigh : round (q * 10000) ≤ (1000000 : ℤ) := by
    have h2 : round (q * 10000) ≤ round (((1000000 : ℤ) : ℚ)) := by
      rw [round_eq, round_eq]
      apply Int.floor_le_floor
      push_cast
      linarith
    rwa [round_intCast] at h2
  constructor
  · apply div_nonneg _ (by norm_num)
    exact_mod_cast hlow
  · rw [round4, div_le_iff₀ (by norm_num : (0 : ℚ) < 10000)]
    calc ((round (q * 10000) : ℤ) : ℚ) ≤ ((1000000 : ℤ) : ℚ) := by exact_mod_cast hhigh
    _ = 100 * 10000 := by norm_num

/-- Claim C1 (amended): `compute_metrics` returns one entry per ROUGE
variant returned by the rouge library plus one BLEU entry; each ROUGE
value is the mid f-measure times 100 over the decoded prediction and
reference pairs (batch-decoded with special tokens skipped), the BLEU
value is the sacrebleu corpus score over the same decoded pairs, and every
returned value is rounded to four decimal places. -/
theorem compute_metrics_shape (tok : Tokenizer) (rouge : RougeMetric)
    (bleuFn : List String → List (List String) → BleuResult) (ep : EvalPred) :
    compute_metrics tok rouge bleuFn ep = compute_metrics_spec tok rouge bleuFn ep ∧
    (compute_metrics tok rouge bleuFn ep).length =
      (rouge.compute (tok.batch_decode ep.predictions true)
        (tok.batch_decode ep.labels true) true).length + 1 := by
  constructor
  · simp [compute_metrics, compute_metrics_spec, List.map_append, List.map_map]
  · simp [compute_metrics]

/-- Claim C1 (counterexample): with the rouge library returning its
default four rouge types (`rouge1`, `rouge2`, `rougeL`, `rougeLsum`, the
`datasets` default when `rouge_types` is not passed, as in the notebook),
`compute_metrics` returns five values, not exactly three. -/
theorem compute_metrics_count_ne_three :
    (compute_metrics tokW rougeW corpusBleuW epW).length = 5 ∧
    ¬ ((compute_metrics tokW rougeW corpusBleuW epW).length = 3) := by
  constructor
  · rfl
  · decide

/-- Claim C7: mapping `preprocess_function` over a split yields, for every
example, an input sequence of exactly 512 token ids and a labels sequence
of exactly 128 token ids, and the labels column is exactly the
`input_ids` of the description tokenized at max length 128. -/
theorem preprocess_shapes (tok : Tokenizer) (d : RawDataset) :
    (∀ ids ∈ (Dataset.map (preprocess_function tok) d).input_ids, ids.length = 512) ∧
    (∀ lab ∈ (Dataset.map (preprocess_function tok) d).labels, lab.length = 128) ∧
    (Dataset.map (preprocess_function tok) d).labels =
      (tokenizerCall tok d.description 128).input_ids := by
  refine ⟨?_, ?_, rfl⟩
  · intro ids hmem
    simp only [Dataset.map, preprocess_function, tokenizerCall, List.mem_map] at hmem
    obtain ⟨t, _, rfl⟩ := hmem
    exact truncPad_length _ _ _
  · intro lab hmem
    simp only [Dataset.map, preprocess_function, tokenizerCall, Option.getD_some,
      List.mem_map] at hmem
    obtain ⟨t, _, rfl⟩ := hmem
    exact truncPad_length _ _ _

/-- Claim C7 witness: the shapes hold on a concrete tokenizer and a
concrete one-row split. -/
theorem preprocess_shapes_witness :
    (truncPad tokW.padId 512 (tokW.encode "hello")).length = 512 ∧
    (truncPad tokW.padId 128 (tokW.encode "hi")).length = 128 := by
  constructor
  · exact (preprocess_shapes tokW (Dataset.from_dict ["hello"] ["hi"])).1 _
      (by simp [Dataset.map, preprocess_function, tokenizerCall, Dataset.from_dict])
  · exact (preprocess_shapes tokW (Dataset.from_dict ["hello"] ["hi"])).2.1 _
      (by simp [Dataset.map, preprocess_function, tokenizerCall, Dataset.from_dict])

/-- Claim C8: when every mid f-measure the rouge library returns lies in
`[0, 1]` and the sacrebleu corpus score lies on its documented 0-100
scale, every value `compute_metrics` returns lies in `[0, 100]` (each
ROUGE value being the mid f-measure times 100 before rounding, the BLEU
value the sacrebleu score before rounding). -/
theorem metrics_in_percentage_range (tok : Tokenizer) (rouge : RougeMetric)
    (bleuFn : List String → List (List String) → BleuResult) (ep : EvalPred)
    (hR : ∀ kv ∈ rouge.compute (tok.batch_decode ep.predictions true)
        (tok.batch_decode ep.labels true) true,
        0 ≤ kv.2.mid.fmeasure ∧ kv.2.mid.fmeasure ≤ 1)
    (hB0 : 0 ≤ (bleuFn (tok.batch_decode ep.predictions true)
        [tok.batch_decode ep.labels true]).score)
    (hB1 : (bleuFn (tok.batch_decode ep.predictions true)
        [tok.batch_decode ep.labels true]).score ≤ 100) :
    ∀ kv ∈ compute_metrics tok rouge bleuFn ep, 0 ≤ kv.2 ∧ kv.2 ≤ 100 := by
  intro kv hkv
  simp only [compute_metrics, List.map_append, List.map_map, List.mem_append,
    List.mem_map, Function.comp, List.map_cons, List.map_nil,
    List.mem_singleton] at hkv
  rcases hkv with ⟨x, hx, rfl⟩ | rfl
  · have hb := hR x hx
    exact round4_nonneg_le_hundred
      (mul_nonneg hb.1 (by norm_num)) (by linarith [hb.2])
  · exact round4_nonneg_le_hundred hB0 hB1

/-- Every mid f-measure `rougeW` returns lies in `[0, 1]`. -/
theorem rougeW_bounds (p r : List String) (u : Bool) :
    ∀ kv ∈ rougeW.compute p r u, 0 ≤ kv.2.mid.fmeasure ∧ kv.2.mid.fmeasure ≤ 1 := by
  intro kv hkv
  simp only [rougeW, List.mem_cons, List.not_mem_nil, or_false] at hkv
  rcases hkv with h | h | h | h <;> subst h <;> norm_num [aggW]

/-- Claim C8 witness: the range hypotheses hold for a concrete rouge
result and bleu score, and the bounds then hold on the concrete call. -/
theorem metrics_in_percentage_range_witness :
    (∀ kv ∈ rougeW.compute (tokW.batch_decode epW.predictions true)
        (tokW.batch_decode epW.labels true) true,
        0 ≤ kv.2.mid.fmeasure ∧ kv.2.mid.fmeasure ≤ 1) ∧
    (∀ kv ∈ compute_metrics tokW rougeW corpusBleuW epW, 0 ≤ kv.2 ∧ kv.2 ≤ 100) := by
  constructor
  · exact rougeW_bounds _ _ _
  · exact metrics_in_percentage_range tokW rougeW corpusBleuW epW
      (rougeW_bounds _ _ _) (by norm_num [corpusBleuW]) (by norm_num [corpusBleuW])

/-- A successful concrete run of the notebook under `envW`. -/
theorem envW_run : ∃ fin tr, notebook envW = Except.ok (fin, tr) := ⟨_, _, rfl⟩

/-- Claim C2: a successful run reads exactly the three CSV files
`preprocessed_data/{train,val,test}.csv`, in that order, and extracts
exactly the columns `transcription` and `description` from each frame;
no other read or column-extraction event occurs. -/
theorem read_inputs_fixed (env : Env) (fin : NotebookFinal) (tr : List Event)
    (h : notebook env = Except.ok (fin, tr)) :
    tr.filterMap (fun e => match e with | Event.read_csv p => some p | _ => none) =
      ["preprocessed_data/train.csv", "preprocessed_data/val.csv",
       "preprocessed_data/test.csv"] ∧
    tr.filterMap
        (fun e => match e with | Event.extract_column df c => some (df, c) | _ => none) =
      [("train_df", "transcription"), ("train_df", "description"),
       ("val_df", "transcription"), ("val_df", "description"),
       ("test_df", "transcription"), ("test_df", "description")] := by
  obtain ⟨_, _, _, _, _, _, _, _, _, _, _, _, _, _,
    _, _, _, _, _, _, _, _, _, _, _, _, _, _, _, ht⟩ := notebook_ok_inv env fin tr h
  subst ht
  exact ⟨rfl, rfl⟩

/-- Claim C2 witness: the read and extraction trace on a concrete
successful environment. -/
theorem read_inputs_fixed_witness :
    ∃ fin tr, notebook envW = Except.ok (fin, tr) ∧
      tr.filterMap (fun e => match e with | Event.read_csv p => some p | _ => none) =
        ["preprocessed_data/train.csv", "preprocessed_data/val.csv",
         "preprocessed_data/test.csv"] := by
  obtain ⟨fin, tr, hok⟩ := envW_run
  exact ⟨fin, tr, hok, (read_inputs_fixed envW fin tr hok).1⟩

/-- Claim C3: on a successful run the training-arguments object carries
learning rate 2e-5, per-device train and eval batch sizes 2, epoch count
3, output directory `./results` and logging directory `./logs`, and the
trainer's `args` at the end of the run is exactly that object. -/
theorem training_args_values (env : Env) (fin : NotebookFinal) (tr : List Event)
    (h : notebook env = Except.ok (fin, tr)) :
    fin.training_args.learning_rate = 2e-5 ∧
    fin.training_args.per_device_train_batch_size = 2 ∧
    fin.training_args.per_device_eval_batch_size = 2 ∧
    fin.training_args.num_train_epochs = 3 ∧
    fin.training_args.output_dir = "./results" ∧
    fin.training_args.logging_dir = "./logs" ∧
    fin.trainer.args = fin.training_args := by
  obtain ⟨_, _, _, _, _, _, _, _, _, _, _, _, _, _,
    _, _, _, _, _, _, _, _, _, _, _, _, _, _, hf, _⟩ := notebook_ok_inv env fin tr h
  subst hf
  exact ⟨rfl, rfl, rfl, rfl, rfl, rfl, rfl⟩

/-- Claim C3 witness: the learning rate on a concrete successful run. -/
theorem training_args_values_witness :
    ∃ fin tr, notebook envW = Except.ok (fin, tr) ∧
      fin.training_args.learning_rate = 2e-5 := by
  obtain ⟨fin, tr, hok⟩ := envW_run
  exact ⟨fin, tr, hok, (training_args_values envW fin tr hok).1⟩

/-- Claim C4: the trace of a successful run is one fixed linear order:
the three reads, the six column extractions, tokenizer load, the three
split tokenizations, model load, metric load, trainer configuration,
training, and only then the test evaluation as the very last event. -/
theorem script_linear_order (env : Env) (fin : NotebookFinal) (tr : List Event)
    (h : notebook env = Except.ok (fin, tr)) :
    tr = successTrace ∧
    tr.length = 18 ∧
    tr.get? 16 = some Event.trainer_train ∧
    tr.get? 17 = some (Event.trainer_evaluate "test") := by
  obtain ⟨_, _, _, _, _, _, _, _, _, _, _, _, _, _,
    _, _, _, _, _, _, _, _, _, _, _, _, _, _, _, ht⟩ := notebook_ok_inv env fin tr h
  subst ht
  exact ⟨rfl, rfl, rfl, rfl⟩

/-- Claim C4 witness: the fixed trace on a concrete successful run. -/
theorem script_linear_order_witness :
    ∃ fin tr, notebook envW = Except.ok (fin, tr) ∧ tr = successTrace := by
  obtain ⟨fin, tr, hok⟩ := envW_run
  exact ⟨fin, tr, hok, (script_linear_order envW fin tr hok).1⟩

/-- Claim C6: on a successful run the dataset dict has exactly the keys
`train`, `validation`, `test` in that order; each entry is the
corresponding `Dataset.from_dict` of the two column lists mapped through
the same `preprocess_function` with the loaded tokenizer. -/
theorem dataset_dict_structure (env : Env) (fin : NotebookFinal) (tr : List Event)
    (h : notebook env = Except.ok (fin, tr)) :
    fin.dataset.map Prod.fst = ["train", "validation", "test"] ∧
    fin.dataset =
      [("train", Dataset.map (preprocess_function fin.tokenizer) fin.train_data),
       ("validation", Dataset.map (preprocess_function fin.tokenizer) fin.val_data),
       ("test", Dataset.map (preprocess_function fin.tokenizer) fin.test_data)] ∧
    fin.train_data = Dataset.from_dict fin.train_transcriptions fin.train_descriptions ∧
    fin.val_data = Dataset.from_dict fin.val_transcriptions fin.val_descriptions ∧
    fin.test_data = Dataset.from_dict fin.test_transcriptions fin.test_descriptions := by
  obtain ⟨_, _, _, _, _, _, _, _, _, _, _, _, _, _,
    _, _, _, _, _, _, _, _, _, _, _, _, _, _, hf, _⟩ := notebook_ok_inv env fin tr h
  subst hf
  exact ⟨rfl, rfl, rfl, rfl, rfl⟩

/-- Claim C6 witness: the dict keys on a concrete successful run. -/
theorem dataset_dict_structure_witness :
    ∃ fin tr, notebook envW = Except.ok (fin, tr) ∧
      fin.dataset.map Prod.fst = ["train", "validation", "test"] := by
  obtain ⟨fin, tr, hok⟩ := envW_run
  exact ⟨fin, tr, hok, (dataset_dict_structure envW fin tr hok).1⟩

/-- Claim C9: on a successful run the trainer's `train_dataset` is the
`train` entry of the dict and its `eval_dataset` the `validation` entry;
the only evaluation call with an explicit dataset is the single final one
on the `test` entry, which happens after the training event; the test
split is never the training split of the configured trainer. -/
theorem split_usage (env : Env) (fin : NotebookFinal) (tr : List Event)
    (h : notebook env = Except.ok (fin, tr)) :
    dsGet fin.dataset "train" = Except.ok fin.trainer.train_dataset ∧
    dsGet fin.dataset "validation" = Except.ok fin.trainer.eval_dataset ∧
    tr.filterMap
        (fun e => match e with | Event.trainer_evaluate k => some k | _ => none) =
      ["test"] ∧
    tr.filterMap
        (fun e => match e with | Event.configure_trainer tk ek => some (tk, ek) | _ => none) =
      [("train", "validation")] ∧
    tr.get? 16 = some Event.trainer_train ∧
    tr.get? 17 = some (Event.trainer_evaluate "test") := by
  obtain ⟨_, _, _, _, _, _, _, _, _, _, _, _, _, _,
    _, _, _, _, _, _, _, _, _, _, _, _, _, _, hf, ht⟩ := notebook_ok_inv env fin tr h
  subst hf
  subst ht
  exact ⟨rfl, rfl, rfl, rfl, rfl, rfl⟩

/-- Claim C9 witness: the trainer's train split on a concrete run. -/
theorem split_usage_witness :
    ∃ fin tr, notebook envW = Except.ok (fin, tr) ∧
      dsGet fin.dataset "train" = Except.ok fin.trainer.train_dataset := by
  obtain ⟨fin, tr, hok⟩ := envW_run
  exact ⟨fin, tr, hok, (split_usage envW fin tr hok).1⟩

/-- Claim C5: the notebook catches nothing.  Whichever external call is
the first to raise (any of the three CSV reads, any of the six column
extractions, the tokenizer, model or metric loads, `trainer.train`, or
the final `trainer.evaluate`), the whole notebook raises exactly that
error, with no transformation, retry or recovery.  The `dataset[...]`
lookups are on a dict constructed with exactly those keys and cannot
raise. -/
theorem errors_propagate (env : Env) (e : Err) :
    (env.read_csv "preprocessed_data/train.csv" = Except.error e →
      notebook env = Except.error e) ∧
    (∀ trDf, env.read_csv "preprocessed_data/train.csv" = Except.ok trDf →
      env.read_csv "preprocessed_data/val.csv" = Except.error e →
      notebook env = Except.error e) ∧
    (∀ trDf vaDf, env.read_csv "preprocessed_data/train.csv" = Except.ok trDf →
      env.read_csv "preprocessed_data/val.csv" = Except.ok vaDf →
      env.read_csv "preprocessed_data/test.csv" = Except.error e →
      notebook env = Except.error e) ∧
    (∀ trDf vaDf teDf, env.read_csv "preprocessed_data/train.csv" = Except.ok trDf →
      env.read_csv "preprocessed_data/val.csv" = Except.ok vaDf →
      env.read_csv "preprocessed_data/test.csv" = Except.ok teDf →
      getColumn trDf "transcription" = Except.error e →
      notebook env = Except.error e) ∧
    (∀ trDf vaDf teDf trT, env.read_csv "preprocessed_data/train.csv" = Except.ok trDf →
      env.read_csv "preprocessed_data/val.csv" = Except.ok vaDf →
      env.read_csv "preprocessed_data/test.csv" = Except.ok teDf →
      getColumn trDf "transcription" = Except.ok trT →
      getColumn trDf "description" = Except.error e →
      notebook env = Except.error e) ∧
    (∀ trDf vaDf teDf trT trD, env.read_csv "preprocessed_data/train.csv" = Except.ok trDf →
      env.read_csv "preprocessed_data/val.csv" = Except.ok vaDf →
      env.read_csv "preprocessed_data/test.csv" = Except.ok teDf →
      getColumn trDf "transcription" = Except.ok trT →
      getColumn trDf "description" = Except.ok trD →
      getColumn vaDf "transcription" = Except.error e →
      notebook env = Except.error e) ∧
    (∀ trDf vaDf teDf trT trD vaT, env.read_csv "preprocessed_data/train.csv" = Except.ok trDf →
      env.read_csv "preprocessed_data/val.csv" = Except.ok vaDf →
      env.read_csv "preprocessed_data/test.csv" = Except.ok teDf →
      getColumn trDf "transcription" = Except.ok trT →
      getColumn trDf "description" = Except.ok trD →
      getColumn vaDf "transcription" = Except.ok vaT →
      getColumn vaDf "description" = Except.error e →
      notebook env = Except.error e) ∧
    (∀ trDf vaDf teDf trT trD vaT vaD, env.read_csv "preprocessed_data/train.csv" = Except.ok trDf →
      env.read_csv "preprocessed_data/val.csv" = Except.ok vaDf →
      env.read_csv "preprocessed_data/test.csv" = Except.ok teDf →
      getColumn trDf "transcription" = Except.ok trT →
      getColumn trDf "description" = Except.ok trD →
      getColumn vaDf "transcription" = Except.ok vaT →
      getColumn vaDf "description" = Except.ok vaD →
      getColumn teDf "transcription" = Except.error e →
      notebook env = Except.error e) ∧
    (∀ trDf vaDf teDf trT trD vaT vaD teT, env.read_csv "preprocessed_data/train.csv" = Except.ok trDf →
      env.read_csv "preprocessed_data/val.csv" = Except.ok vaDf →
      env.read_csv "preprocessed_data/test.csv" = Except.ok teDf →
      getColumn trDf "transcription" = Except.ok trT →
      getColumn trDf "description" = Except.ok trD →
      getColumn vaDf "transcription" = Except.ok vaT →
      getColumn vaDf "description" = Except.ok vaD →
      getColumn teDf "transcription" = Except.ok teT →
      getColumn teDf "description" = Except.error e →
      notebook env = Except.error e) ∧
    (∀ trDf vaDf teDf trT trD vaT vaD teT teD, env.read_csv "preprocessed_data/train.csv" = Except.ok trDf →
      env.read_csv "preprocessed_data/val.csv" = Except.ok vaDf →
      env.read_csv "preprocessed_data/test.csv" = Except.ok teDf →
      getColumn trDf "transcription" = Except.ok trT →
      getColumn trDf "description" = Except.ok trD →
      getColumn vaDf "transcription" = Except.ok vaT →
      getColumn vaDf "description" = Except.ok vaD →
      getColumn teDf "transcription" = Except.ok teT →
      getColumn teDf "description" = Except.ok teD →
      env.tokenizer_from_pretrained checkpointName = Except.error e →
      notebook env = Except.error e) ∧
    (∀ trDf vaDf teDf trT trD vaT vaD teT teD tok, env.read_csv "preprocessed_data/train.csv" = Except.ok trDf →
      env.read_csv "preprocessed_data/val.csv" = Except.ok vaDf →
      env.read_csv "preprocessed_data/test.csv" = Except.ok teDf →
      getColumn trDf "transcription" = Except.ok trT →
      getColumn trDf "description" = Except.ok trD →
      getColumn vaDf "transcription" = Except.ok vaT →
      getColumn vaDf "description" = Except.ok vaD →
      getColumn teDf "transcription" = Except.ok teT →
      getColumn teDf "description" = Except.ok teD →
      env.tokenizer_from_pretrained checkpointName = Except.ok tok →
      env.model_from_pretrained checkpointName = Except.error e →
      notebook env = Except.error e) ∧
    (∀ trDf vaDf teDf trT trD vaT vaD teT teD tok mdl, env.read_csv "preprocessed_data/train.csv" = Except.ok trDf →
      env.read_csv "preprocessed_data/val.csv" = Except.ok vaDf →
      env.read_csv "preprocessed_data/test.csv" = Except.ok teDf →
      getColumn trDf "transcription" = Except.ok trT →
      getColumn trDf "description" = Except.ok trD →
      getColumn vaDf "transcription" = Except.ok vaT →
      getColumn vaDf "description" = Except.ok vaD →
      getColumn teDf "transcription" = Except.ok teT →
      getColumn teDf "description" = Except.ok teD →
      env.tokenizer_from_pretrained checkpointName = Except.ok tok →
      env.model_from_pretrained checkpointName = Except.ok mdl →
      env.load_metric "rouge" = Except.error e →
      notebook env = Except.error e) ∧
    (∀ trDf vaDf teDf trT trD vaT vaD teT teD tok mdl met, env.read_csv "preprocessed_data/train.csv" = Except.ok trDf →
      env.read_csv "preprocessed_data/val.csv" = Except.ok vaDf →
      env.read_csv "preprocessed_data/test.csv" = Except.ok teDf →
      getColumn trDf "transcription" = Except.ok trT →
      getColumn trDf "description" = Except.ok trD →
      getColumn vaDf "transcription" = Except.ok vaT →
      getColumn vaDf "description" = Except.ok vaD →
      getColumn teDf "transcription" = Except.ok teT →
      getColumn teDf "description" = Except.ok teD →
      env.tokenizer_from_pretrained checkpointName = Except.ok tok →
      env.model_from_pretrained checkpointName = Except.ok mdl →
      env.load_metric "rouge" = Except.ok met →
      env.trainer_train (notebookTrainer env tok mdl met trT trD vaT vaD) = Except.error e →
      notebook env = Except.error e) ∧
    (∀ trDf vaDf teDf trT trD vaT vaD teT teD tok mdl met tout, env.read_csv "preprocessed_data/train.csv" = Except.ok trDf →
      env.read_csv "preprocessed_data/val.csv" = Except.ok vaDf →
      env.read_csv "preprocessed_data/test.csv" = Except.ok teDf →
      getColumn trDf "transcription" = Except.ok trT →
      getColumn trDf "description" = Except.ok trD →
      getColumn vaDf "transcription" = Except.ok vaT →
      getColumn vaDf "description" = Except.ok vaD →
      getColumn teDf "transcription" = Except.ok teT →
      getColumn teDf "description" = Except.ok teD →
      env.tokenizer_from_pretrained checkpointName = Except.ok tok →
      env.model_from_pretrained checkpointName = Except.ok mdl →
      env.load_metric "rouge" = Except.ok met →
      env.trainer_train (notebookTrainer env tok mdl met trT trD vaT vaD) = Except.ok tout →
      env.trainer_evaluate (notebookTrainer env tok mdl met trT trD vaT vaD) (splitOf tok teT teD) = Except.error e →
      notebook env = Except.error e) := by
  refine ⟨?_, ?_, ?_, ?_, ?_, ?_, ?_, ?_, ?_, ?_, ?_, ?_, ?_, ?_⟩
  · intro g1
    simp only [notebook, g1, ok_bind, error_bind, dsGet_train, dsGet_validation, dsGet_test]
  · intro trDf g1 g2
    simp only [notebook, g1, g2, ok_bind, error_bind, dsGet_train, dsGet_validation, dsGet_test]
  · intro trDf vaDf g1 g2 g3
    simp only [notebook, g1, g2, g3, ok_bind, error_bind, dsGet_train, dsGet_validation, dsGet_test]
  · intro trDf vaDf teDf g1 g2 g3 g4
    simp only [notebook, g1, g2, g3, g4, ok_bind, error_bind, dsGet_train, dsGet_validation, dsGet_test]
  · intro trDf vaDf teDf trT g1 g2 g3 g4 g5
    simp only [notebook, g1, g2, g3, g4, g5, ok_bind, error_bind, dsGet_train, dsGet_validation, dsGet_test]
  · intro trDf vaDf teDf trT trD g1 g2 g3 g4 g5 g6
    simp only [notebook, g1, g2, g3, g4, g5, g6, ok_bind, error_bind, dsGet_train, dsGet_validation, dsGet_test]
  · intro trDf vaDf teDf trT trD vaT g1 g2 g3 g4 g5 g6 g7
    simp only [notebook, g1, g2, g3, g4, g5, g6, g7, ok_bind, error_bind, dsGet_train, dsGet_validation, dsGet_test]
  · intro trDf vaDf teDf trT trD vaT vaD g1 g2 g3 g4 g5 g6 g7 g8
    simp only [notebook, g1, g2, g3, g4, g5, g6, g7, g8, ok_bind, error_bind, dsGet_train, dsGet_validation, dsGet_test]
  · intro trDf vaDf teDf trT trD vaT vaD teT g1 g2 g3 g4 g5 g6 g7 g8 g9
    simp only [notebook, g1, g2, g3, g4, g5, g6, g7, g8, g9, ok_bind, error_bind, dsGet_train, dsGet_validation, dsGet_test]
  · intro trDf vaDf teDf trT trD vaT vaD teT teD g1 g2 g3 g4 g5 g6 g7 g8 g9 g10
    simp only [notebook, g1, g2, g3, g4, g5, g6, g7, g8, g9, g10, ok_bind, error_bind, dsGet_train, dsGet_validation, dsGet_test]
  · intro trDf vaDf teDf trT trD vaT vaD teT teD tok g1 g2 g3 g4 g5 g6 g7 g8 g9 g10 g11
    simp only [notebook, g1, g2, g3, g4, g5, g6, g7, g8, g9, g10, g11, ok_bind, error_bind, dsGet_train, dsGet_validation, dsGet_test]
  · intro trDf vaDf teDf trT trD vaT vaD teT teD tok mdl g1 g2 g3 g4 g5 g6 g7 g8 g9 g10 g11 g12
    simp only [notebook, g1, g2, g3, g4, g5, g6, g7, g8, g9, g10, g11, g12, ok_bind, error_bind, dsGet_train, dsGet_validation, dsGet_test]
  · intro trDf vaDf teDf trT trD vaT vaD teT teD tok mdl met g1 g2 g3 g4 g5 g6 g7 g8 g9 g10 g11 g12 g13
    simp only [notebook, g1, g2, g3, g4, g5, g6, g7, g8, g9, g10, g11, g12, g13, ok_bind, error_bind, dsGet_train, dsGet_validation, dsGet_test]
  · intro trDf vaDf teDf trT trD vaT vaD teT teD tok mdl met tout g1 g2 g3 g4 g5 g6 g7 g8 g9 g10 g11 g12 g13 g14
    simp only [notebook, g1, g2, g3, g4, g5, g6, g7, g8, g9, g10, g11, g12, g13, g14, ok_bind, error_bind, dsGet_train, dsGet_validation, dsGet_test]

/-- Claim C5 witness: a failing `read_csv` makes the concrete notebook
run fail with exactly that error. -/
theorem errors_propagate_witness :
    notebook envFailW = Except.error (Err.libError "FileNotFoundError") := by
  exact (errors_propagate envFailW (Err.libError "FileNotFoundError")).1 rfl

end HW4
